import Mathlib

/-!
Shallow embedding of the realtime collaborative editor backend
(`backend/src/yjs-provider.ts` and `backend/src/persistence.ts`) together
with proofs about room lifecycle, sync relay, presence and persistence
behaviour.  The event-driven runtime is modelled as explicit state passing:
every socket.io handler becomes a function from provider state (plus the
incoming message) to a new provider state and the ordered list of messages
it emits.  Timers (`setTimeout`) become recorded deadlines that a separate
firing step consumes, mirroring the single-threaded event loop in which a
handler body runs atomically up to its first `await`.
-/

namespace Collab

/-- Raw update / state-vector bytes (a `Uint8Array` in the source). -/
abbrev Bytes := List Nat

/-- Modelled from the spec: the CRDT library (`yjs`) is an out-of-scope
external collaborator, "treated as an opaque document handle" whose
`applyUpdate` "is commutative and idempotent under duplicate delivery".  We
model a document's abstract state as the list of distinct updates it has
applied, in arrival order.  `structurallyValid` stands for the library's
structural decoding check; an empty byte buffer is not a decodable update. -/
def structurallyValid (b : Bytes) : Bool := !b.isEmpty

/-- Modelled from the spec: `Y.applyUpdate` — applies an unseen valid update,
is a content no-op on duplicates, and rejects structurally invalid bytes
(§7 "Apply failure"). -/
def yApplyUpdate (content : List Bytes) (b : Bytes) : Except String (List Bytes) :=
  if structurallyValid b then
    .ok (if b ∈ content then content else content ++ [b])
  else
    .error "update decode failure"

/-- Modelled from the spec: `Y.encodeStateAsUpdate doc sv` — an opaque delta
encoding; no claim below depends on its value. -/
def encodeStateAsUpdate (content : List Bytes) (_sv : Bytes) : Bytes :=
  content.flatten

/-- Modelled from the spec: `Y.encodeStateVector doc` — an opaque summary of
the document's state; no claim below depends on its value. -/
def encodeStateVector (content : List Bytes) : Bytes :=
  [content.length]

/-- An ephemeral presence state: opaque field/value pairs. -/
abbrev PresState := List (String × String)

/-- Modelled from the spec: the `y-protocols` `Awareness` instance held by the
server for each room — a table of presence states keyed by numeric replica id
(`clientID`), whose constructor sets the instance's own local state to the
empty object. -/
structure Awareness where
  clientID : Nat
  states : List (Nat × PresState)
deriving Repr, DecidableEq

/-- `new Awareness(doc)`: the states table initially holds only the
instance's own (empty) local state. -/
def Awareness.new (cid : Nat) : Awareness :=
  ⟨cid, [(cid, [])]⟩

/-- `awareness.removeLocalStateField(f)`: drops field `f` from this
instance's own local state, and only from it. -/
def Awareness.removeLocalStateField (a : Awareness) (f : String) : Awareness :=
  { a with
    states := a.states.map fun e =>
      if e.1 = a.clientID then (e.1, e.2.filter fun kv => kv.1 ≠ f) else e }

/-! ### Association-list maps

`Map<string, _>` objects of the provider are embedded as association lists
with key-overwriting insertion. -/

/-- `map.get(k)`. -/
def alGet {α β : Type} [DecidableEq α] : List (α × β) → α → Option β
  | [], _ => none
  | (k', v) :: rest, k => if k' = k then some v else alGet rest k

/-- `map.set(k, v)` (overwrites in place, appends when absent). -/
def alSet {α β : Type} [DecidableEq α] : List (α × β) → α → β → List (α × β)
  | [], k, v => [(k, v)]
  | (k', v') :: rest, k, v =>
      if k' = k then (k, v) :: rest else (k', v') :: alSet rest k v

/-- `map.delete(k)`. -/
def alErase {α β : Type} [DecidableEq α] (l : List (α × β)) (k : α) : List (α × β) :=
  l.filter fun e => e.1 ≠ k

/-! ### Connection and provider state -/

/-- The `UserInfo` record attached to a joined connection (types.ts). -/
structure UserInfo where
  username : String
  color : String
  userId : String
deriving Repr, DecidableEq

/-- A registered message-handler closure.  Each of `syncStep2Handler`,
`docUpdateHandler` and `awarenessUpdateHandler` captures the `docId` and the
document object of the `join-doc` invocation that created it. -/
structure Handler where
  docId : String
  docRef : Nat
deriving Repr, DecidableEq

/-- Per-connection state: socket.io room membership, the dynamic
`(socket as any).docId` / `userInfo` attributes, and the listener lists for
the three document events, in registration order. -/
structure SocketSt where
  sid : String
  rooms : List String
  docId : Option String
  userInfo : Option UserInfo
  connected : Bool
  onSyncStep2 : List Handler
  onDocUpdate : List Handler
  onAwarenessUpdate : List Handler
deriving Repr, DecidableEq

/-- A fresh socket at connection time. -/
def newSocket (sid : String) : SocketSt :=
  ⟨sid, [], none, none, true, [], [], []⟩

/-- A pending room-cleanup `setTimeout` armed by the disconnect handler. -/
structure EvictionTimer where
  docId : String
  deadline : Nat
deriving Repr, DecidableEq

/-- A pending debounced-save `setTimeout`; the callback captures the
document object that was passed to `debouncedSave`. -/
structure SaveTimer where
  deadline : Nat
  docRef : Nat
deriving Repr, DecidableEq

/-- A write performed against the durable store: document id, time of the
write, snapshot content. -/
structure SaveRecord where
  docId : String
  time : Nat
  content : List Bytes
deriving Repr, DecidableEq

/-- The whole `YjsSocketProvider` state: its four `Map`s (`documents`,
`awareness`, `clients`, `saveDebounceTimers`), the connected sockets, the
pending cleanup timers, the durable store contents and write log, plus an
object heap for `Y.Doc` instances (handler closures keep a document object
alive even after the provider drops it from `documents`, so heap entries are
never deleted) and the current event-loop time. -/
structure ProviderState where
  now : Nat
  nextRef : Nat
  heap : List (Nat × List Bytes)
  documents : List (String × Nat)
  awareness : List (String × Awareness)
  clients : List (String × List String)
  saveTimers : List (String × SaveTimer)
  evictionTimers : List EvictionTimer
  sockets : List (String × SocketSt)
  store : List (String × List Bytes)
  saves : List SaveRecord
  logs : Nat
deriving Repr, DecidableEq

/-- The provider before any connection, over an empty store. -/
def initState : ProviderState :=
  { now := 0, nextRef := 0, heap := [], documents := [], awareness := [],
    clients := [], saveTimers := [], evictionTimers := [], sockets := [],
    store := [], saves := [], logs := 0 }

/-- `this.SAVE_DEBOUNCE_MS`. -/
def SAVE_DEBOUNCE_MS : Nat := 1000

/-- The cleanup delay of the disconnect handler ("60 second TTL"). -/
def CLEANUP_TTL_MS : Nat := 60000

/-- Content of the document object `r` points at (`[]` for a dangling
reference, which the source never produces). -/
def heapGet (st : ProviderState) (r : Nat) : List Bytes :=
  (alGet st.heap r).getD []

/-- Advance the event-loop clock to the moment an event is processed. -/
def setNow (st : ProviderState) (t : Nat) : ProviderState :=
  { st with now := t }

/-- Apply `f` to the socket registered under `sid`, if any. -/
def updateSocket (st : ProviderState) (sid : String) (f : SocketSt → SocketSt) :
    ProviderState :=
  match alGet st.sockets sid with
  | none => st
  | some s => { st with sockets := alSet st.sockets sid (f s) }

/-! ### Message targets and emissions -/

/-- Where an emission is addressed: `socket.emit` (unicast to one
connection) or `socket.to(room).emit` (everyone in the room except the
sending connection). -/
inductive Target
  | toSocket (sid : String)
  | toRoomExcept (room : String) (sender : String)
deriving Repr, DecidableEq

/-- The payload shapes the provider emits. -/
inductive Payload
  | bytesMsg (docId : String) (data : Bytes)
  | awarenessMsg (docId : String) (entries : List (Nat × PresState))
  | userJoined (u : UserInfo)
  | userLeft (userId : String)
deriving Repr, DecidableEq

/-- One emitted message. -/
structure Emission where
  target : Target
  event : String
  payload : Payload
deriving Repr, DecidableEq

/-! ### The `join-doc` handler -/

/-- The `join-doc` payload; each field may be absent. -/
structure JoinPayload where
  docId : Option String
  username : Option String
  color : Option String
deriving Repr, DecidableEq

/-- JS truthiness of an optional string field (`!data.docId`): an absent
field and the empty string are both falsy. -/
def truthy : Option String → Bool
  | none => false
  | some s => !s.isEmpty

/-- The handler's validation guard
`!data || !data.docId || !data.username || !data.color`, negated. -/
def isValidJoin : Option JoinPayload → Bool
  | none => false
  | some p => truthy p.docId && truthy p.username && truthy p.color

/-- The synchronous prefix of document acquisition in the `join-doc`
handler: look `docId` up in `this.documents`; when absent, construct a fresh
`Y.Doc` and `set` it into the map *before* any asynchronous work.  Returns
the document reference and whether a snapshot load is still owed (the code
`await`s `persistence.loadDocument` only inside the creation branch). -/
def joinAcquireSync (st : ProviderState) (docId : String) :
    ProviderState × Nat × Bool :=
  match alGet st.documents docId with
  | some r => (st, r, false)
  | none =>
      let r := st.nextRef
      ({ st with
          nextRef := r + 1,
          heap := alSet st.heap r [],
          documents := alSet st.documents docId r }, r, true)

/-- The continuation after `await this.persistence.loadDocument(docId)`:
when a load was owed and the store holds a snapshot, apply it to the
captured document object (`Y.applyUpdate(doc, persisted)`; updates already
present are a content no-op). -/
def joinLoadContinuation (st : ProviderState) (docId : String) (r : Nat)
    (created : Bool) : ProviderState :=
  if created then
    match alGet st.store docId with
    | some snap =>
        { st with
          heap := alSet st.heap r
            (heapGet st r ++ snap.filter fun u => u ∉ heapGet st r) }
    | none => st
  else st

/-- The `join-doc` handler (`setupSocketHandlers`, yjs-provider.ts).
Returns the new provider state and the emissions in program order.
`socket.off(ev, handler)` right before each `socket.on(ev, handler)` is a
no-op in the source, because the closure passed to `off` was freshly created
and is never the registered listener object; listener lists therefore only
shrink through the same-document `removeAllListeners` branch. -/
def processJoin (st0 : ProviderState) (sid : String) (data : Option JoinPayload) :
    ProviderState × List Emission :=
  if !isValidJoin data then
    ({ st0 with logs := st0.logs + 1 }, [])
  else
    match alGet st0.sockets sid with
    | none => (st0, [])
    | some sock =>
      let p := data.getD ⟨none, none, none⟩
      let docId := p.docId.getD ""
      let username := p.username.getD ""
      let color := p.color.getD ""
      let currentDocId := sock.docId
      -- if the socket is already in a different document, leave it first
      let st1 :=
        match currentDocId with
        | some d =>
            if d ≠ docId then
              let st' := updateSocket st0 sid fun s =>
                { s with rooms := s.rooms.filter (· ≠ d) }
              match alGet st'.clients d with
              | some cs =>
                  { st' with clients := alSet st'.clients d (cs.filter (· ≠ sid)) }
              | none => st'
            else st0
        | none => st0
      -- if the socket is already in this document, remove old listeners first
      let st2 :=
        if currentDocId = some docId then
          updateSocket st1 sid fun s =>
            { s with onSyncStep2 := [], onDocUpdate := [], onAwarenessUpdate := [] }
        else st1
      -- socket.join(docId)
      let st3 := updateSocket st2 sid fun s =>
        { s with rooms := if docId ∈ s.rooms then s.rooms else s.rooms ++ [docId] }
      -- initialize or get the document, then the awaited snapshot load
      let acq := joinAcquireSync st3 docId
      let r := acq.2.1
      let st5 := joinLoadContinuation acq.1 docId r acq.2.2
      -- initialize or get awareness
      let aw := (alGet st5.awareness docId).getD (Awareness.new r)
      let st6 := { st5 with awareness := alSet st5.awareness docId aw }
      -- track client
      let cs := (alGet st6.clients docId).getD []
      let st7 := { st6 with
        clients := alSet st6.clients docId (if sid ∈ cs then cs else cs ++ [sid]) }
      -- set the dynamic docId / userInfo attributes
      let ui : UserInfo := ⟨username, color, sid⟩
      let st8 := updateSocket st7 sid fun s =>
        { s with docId := some docId, userInfo := some ui }
      -- handshake step 1, current awareness table, join announcement
      let em1 : Emission :=
        ⟨.toSocket sid, "sync-step1", .bytesMsg docId (encodeStateVector (heapGet st8 r))⟩
      let awEms : List Emission :=
        if aw.states.length > 0 then
          [⟨.toSocket sid, "awareness-update", .awarenessMsg docId aw.states⟩]
        else []
      let em3 : Emission := ⟨.toRoomExcept docId sid, "user-joined", .userJoined ui⟩
      -- register the three handlers
      let h : Handler := ⟨docId, r⟩
      let st9 := updateSocket st8 sid fun s =>
        { s with
          onSyncStep2 := s.onSyncStep2 ++ [h],
          onDocUpdate := s.onDocUpdate ++ [h],
          onAwarenessUpdate := s.onAwarenessUpdate ++ [h] }
      (st9, [em1] ++ awEms ++ [em3])

/-! ### The registered message handlers -/

/-- A `{docId, data}` message carrying raw bytes. -/
structure DocMsg where
  docId : String
  data : Bytes
deriving Repr, DecidableEq

/-- An `awareness-update` message; `entries = none` models a payload whose
`data` field is not an array (`Array.isArray` fails). -/
structure AwarenessMsg where
  docId : String
  entries : Option (List (Nat × PresState))
deriving Repr, DecidableEq

/-- One registered `syncStep2Handler` closure processing a `sync-step2`
message: on a matching `docId`, unicast the missing updates back to the
sender and nothing else. -/
def runSyncStep2Handler (sid : String) (msg : Option DocMsg) (h : Handler)
    (acc : ProviderState × List Emission) : ProviderState × List Emission :=
  match msg with
  | none => acc
  | some m =>
      if m.docId ≠ h.docId then acc
      else
        (acc.1, acc.2 ++ [⟨.toSocket sid, "sync-update",
          .bytesMsg h.docId (encodeStateAsUpdate (heapGet acc.1 h.docRef) m.data)⟩])

/-- Delivery of a `sync-step2` message to a socket: every registered
listener runs, in registration order. -/
def processSyncStep2 (st : ProviderState) (sid : String) (msg : Option DocMsg) :
    ProviderState × List Emission :=
  match alGet st.sockets sid with
  | none => (st, [])
  | some sock =>
      sock.onSyncStep2.foldl (fun acc h => runSyncStep2Handler sid msg h acc) (st, [])

/-- One registered `docUpdateHandler` closure processing a `doc-update`
message: on a matching `docId`, apply the bytes to the captured document,
broadcast them verbatim to the rest of the room, and re-arm the debounced
save; an apply failure is caught and logged, skipping both the broadcast and
the save. -/
def runDocUpdateHandler (sid : String) (msg : Option DocMsg) (h : Handler)
    (acc : ProviderState × List Emission) : ProviderState × List Emission :=
  match msg with
  | none => acc
  | some m =>
      if m.docId ≠ h.docId then acc
      else
        match yApplyUpdate (heapGet acc.1 h.docRef) m.data with
        | .ok c =>
            let st1 := { acc.1 with heap := alSet acc.1.heap h.docRef c }
            let st2 := { st1 with
              saveTimers := alSet st1.saveTimers h.docId
                ⟨st1.now + SAVE_DEBOUNCE_MS, h.docRef⟩ }
            (st2, acc.2 ++
              [⟨.toRoomExcept h.docId sid, "doc-update", .bytesMsg h.docId m.data⟩])
        | .error _ => ({ acc.1 with logs := acc.1.logs + 1 }, acc.2)

/-- Delivery of a `doc-update` message to a socket: every registered
listener runs, in registration order. -/
def processDocUpdate (st : ProviderState) (sid : String) (msg : Option DocMsg) :
    ProviderState × List Emission :=
  match alGet st.sockets sid with
  | none => (st, [])
  | some sock =>
      sock.onDocUpdate.foldl (fun acc h => runDocUpdateHandler sid msg h acc) (st, [])

/-- One registered `awarenessUpdateHandler` closure: on a matching `docId`
with an array payload, relay the entries to the rest of the room; the
server's own awareness table is never written. -/
def runAwarenessHandler (sid : String) (msg : Option AwarenessMsg) (h : Handler)
    (acc : ProviderState × List Emission) : ProviderState × List Emission :=
  match msg with
  | none => acc
  | some m =>
      if m.docId ≠ h.docId then acc
      else
        match m.entries with
        | some es =>
            (acc.1, acc.2 ++
              [⟨.toRoomExcept h.docId sid, "awareness-update", .awarenessMsg h.docId es⟩])
        | none => acc

/-- Delivery of an `awareness-update` message to a socket. -/
def processAwarenessUpdate (st : ProviderState) (sid : String)
    (msg : Option AwarenessMsg) : ProviderState × List Emission :=
  match alGet st.sockets sid with
  | none => (st, [])
  | some sock =>
      sock.onAwarenessUpdate.foldl (fun acc h => runAwarenessHandler sid msg h acc) (st, [])

/-! ### Disconnect and timers -/

/-- The `disconnect` handler: drop the socket from its room's client set,
call `removeLocalStateField('user')` / `removeLocalStateField('cursor')` on
the room's server-side awareness instance, announce `user-left` carrying the
socket id, and, when the client set emptied, arm the 60 s cleanup timer. -/
def processDisconnect (st0 : ProviderState) (sid : String) :
    ProviderState × List Emission :=
  match alGet st0.sockets sid with
  | none => (st0, [])
  | some sock =>
      let st1 := updateSocket st0 sid fun s => { s with connected := false }
      match sock.docId with
      | none => (st1, [])
      | some docId =>
          let st2 :=
            match alGet st1.clients docId with
            | some cs =>
                { st1 with clients := alSet st1.clients docId (cs.filter (· ≠ sid)) }
            | none => st1
          let st3 :=
            match alGet st2.awareness docId with
            | some a =>
                let a2 := (a.removeLocalStateField "user").removeLocalStateField "cursor"
                { st2 with awareness := alSet st2.awareness docId a2 }
            | none => st2
          let em : Emission := ⟨.toRoomExcept docId sid, "user-left", .userLeft sid⟩
          let st4 :=
            if alGet st3.clients docId = some [] then
              { st3 with evictionTimers :=
                  st3.evictionTimers ++ [⟨docId, st3.now + CLEANUP_TTL_MS⟩] }
            else st3
          (st4, [em])

/-- The cleanup timer's callback, firing at its deadline: re-check that the
client set is still empty (`?.size === 0`, false when the entry is gone),
save the final state, then drop the document handle, awareness table, client
set and any pending debounce timer. -/
def fireEvictionTimer (st : ProviderState) (tmr : EvictionTimer) : ProviderState :=
  if tmr ∈ st.evictionTimers then
    let st0 := { st with evictionTimers := st.evictionTimers.erase tmr }
    if alGet st0.clients tmr.docId = some [] then
      let st1 :=
        match alGet st0.documents tmr.docId with
        | some r =>
            { st0 with
              saves := st0.saves ++ [SaveRecord.mk tmr.docId st0.now (heapGet st0 r)],
              store := alSet st0.store tmr.docId (heapGet st0 r) }
        | none => st0
      { st1 with
        documents := alErase st1.documents tmr.docId,
        awareness := alErase st1.awareness tmr.docId,
        clients := alErase st1.clients tmr.docId,
        saveTimers := alErase st1.saveTimers tmr.docId }
    else st0
  else st

/-- `debouncedSave(docId, doc)`: clear any armed timer for the room and arm
a fresh one with delay `SAVE_DEBOUNCE_MS`, capturing the document object. -/
def debouncedSave (st : ProviderState) (docId : String) (docRef : Nat) :
    ProviderState :=
  { st with saveTimers := alSet st.saveTimers docId ⟨st.now + SAVE_DEBOUNCE_MS, docRef⟩ }

/-- The debounce timer's callback, firing at its deadline: save the captured
document to the store, record the write, and discard the timer entry. -/
def fireSaveTimer (st : ProviderState) (docId : String) : ProviderState :=
  match alGet st.saveTimers docId with
  | none => st
  | some t =>
      { st with
        saves := st.saves ++ [⟨docId, st.now, heapGet st t.docRef⟩],
        store := alSet st.store docId (heapGet st t.docRef),
        saveTimers := alErase st.saveTimers docId }

/-- A burst of calls to the persistence scheduler: `debouncedSave` invoked
for the same room and document at each time in the list, in order. -/
def runSchedulerCalls (d : String) (r : Nat) : ProviderState → List Nat → ProviderState
  | st, [] => st
  | st, t :: ts => runSchedulerCalls d r (debouncedSave (setNow st t) d r) ts

/-! ### Event traces -/

/-- An externally observable event hitting the provider. -/
inductive Event
  | connect (sid : String)
  | join (sid : String) (data : Option JoinPayload)
  | syncStep2 (sid : String) (msg : Option DocMsg)
  | docUpdate (sid : String) (msg : Option DocMsg)
  | awarenessUpdate (sid : String) (msg : Option AwarenessMsg)
  | disconnect (sid : String)
  | evictionFire (tmr : EvictionTimer)
  | saveFire (docId : String)
deriving Repr

/-- Process one timed event. -/
def stepEv (st : ProviderState) (te : Nat × Event) : ProviderState × List Emission :=
  let st := setNow st te.1
  match te.2 with
  | .connect sid => ({ st with sockets := alSet st.sockets sid (newSocket sid) }, [])
  | .join sid d => processJoin st sid d
  | .syncStep2 sid m => processSyncStep2 st sid m
  | .docUpdate sid m => processDocUpdate st sid m
  | .awarenessUpdate sid m => processAwarenessUpdate st sid m
  | .disconnect sid => processDisconnect st sid
  | .evictionFire tmr => (fireEvictionTimer st tmr, [])
  | .saveFire d => (fireSaveTimer st d, [])

/-- Run a timed event trace, accumulating all emissions. -/
def runTrace (st : ProviderState) (evs : List (Nat × Event)) :
    ProviderState × List Emission :=
  evs.foldl (fun acc te => let r := stepEv acc.1 te; (r.1, acc.2 ++ r.2)) (st, [])

/-- A well-formed `join-doc` payload. -/
def pJoin (d u c : String) : Option JoinPayload :=
  some ⟨some d, some u, some c⟩

/-! ### Metadata persistence (persistence.ts) -/

/-- Stored document metadata. -/
structure DocMetadata where
  docId : String
  title : String
  lastModified : Nat
  createdAt : Nat
deriving Repr, DecidableEq

/-- The `metadata` argument of `saveMetadata`; `createdAt` is optional. -/
structure MetadataArg where
  title : String
  lastModified : Nat
  createdAt : Option Nat
deriving Repr, DecidableEq

/-- JS `x || y` on an optional numeric field: `undefined` and `0` are both
falsy. -/
def orFalsy (x : Option Nat) (y : Nat) : Nat :=
  match x with
  | some v => if v ≠ 0 then v else y
  | none => y

/-- `DocumentPersistence.saveMetadata` (persistence.ts): reads the existing
metadata for `docId` and writes
`{docId, title, lastModified, createdAt: metadata.createdAt || existing?.createdAt || Date.now()}`. -/
def saveMetadata (docId : String) (existing : Option DocMetadata)
    (m : MetadataArg) (now : Nat) : DocMetadata :=
  { docId := docId, title := m.title, lastModified := m.lastModified,
    createdAt := orFalsy m.createdAt (orFalsy (existing.map DocMetadata.createdAt) now) }

/-! ### Concrete states and traces used to instantiate the theorems -/

/-- A socket that has completed one `join-doc` for `d` over document `r`. -/
def sockJoined (sid d : String) (r : Nat) : SocketSt :=
  { newSocket sid with
    docId := some d, rooms := [d],
    onSyncStep2 := [⟨d, r⟩], onDocUpdate := [⟨d, r⟩], onAwarenessUpdate := [⟨d, r⟩] }

/-- A room `"d"` with two joined participants `"a"` and `"b"`. -/
def stRoom : ProviderState :=
  { initState with
    heap := [(0, [])], nextRef := 1, documents := [("d", 0)],
    awareness := [("d", Awareness.new 0)],
    clients := [("d", ["a", "b"])],
    sockets := [("a", sockJoined "a" "d" 0), ("b", sockJoined "b" "d" 0)] }

/-- Room `"X"` at time 30000: both participants have disconnected, the
cleanup timer armed by the first disconnect is still pending, socket `"b"`
is still registered with its dynamic `docId` attribute set. -/
def stDrained : ProviderState :=
  { initState with
    now := 30000,
    heap := [(0, [[7]])], nextRef := 1, documents := [("X", 0)],
    awareness := [("X", Awareness.new 0)],
    clients := [("X", [])],
    evictionTimers := [⟨"X", 60000⟩],
    sockets := [("b", { sockJoined "b" "X" 0 with connected := false })] }

/-- The C4 interleaving: `a` joins room `X` and disconnects at time 0
(cleanup due at 60000); `b` joins at 10000 — before that cleanup fires — and
disconnects at 30000 (second cleanup due at 90000); the first, stale timer
fires at 60000. -/
def evictionRaceTrace : List (Nat × Event) :=
  [ (0, .connect "a"), (0, .join "a" (pJoin "X" "alice" "red")),
    (0, .disconnect "a"),
    (10000, .connect "b"), (10000, .join "b" (pJoin "X" "bob" "green")),
    (30000, .disconnect "b"),
    (60000, .evictionFire ⟨"X", 60000⟩) ]

/-- The C6 interleaving: one connection joins `A`, switches to `B`, and
rejoins `A`; the switch path never removes the old listeners. -/
def handlerStackTrace : List (Nat × Event) :=
  [ (0, .connect "s"), (0, .join "s" (pJoin "A" "u" "red")),
    (0, .join "s" (pJoin "B" "u" "red")),
    (0, .join "s" (pJoin "A" "u" "red")) ]

/-- The C9 interleaving: `a` joins room `d` and publishes a presence entry
for its replica id 7; afterwards `b` joins the same room. -/
def latePresenceTrace : List (Nat × Event) :=
  [ (0, .connect "a"), (0, .join "a" (pJoin "d" "alice" "red")),
    (0, .awarenessUpdate "a" (some ⟨"d", some [(7, [("cursor", "3")])]⟩)),
    (0, .connect "b"), (0, .join "b" (pJoin "d" "bob" "green")) ]

/-! ## Helper lemmas -/

theorem alGet_alSet_self {α β : Type} [DecidableEq α] (l : List (α × β)) (k : α) (v : β) :
    alGet (alSet l k v) k = some v := by
  induction l with
  | nil => simp [alGet, alSet]
  | cons e rest ih =>
      by_cases h : e.1 = k
      · simp [alSet, alGet, h]
      · simp [alSet, alGet, h, ih]

theorem alGet_alSet_ne {α β : Type} [DecidableEq α] (l : List (α × β)) (k k' : α) (v : β)
    (h : k' ≠ k) : alGet (alSet l k v) k' = alGet l k' := by
  induction l with
  | nil => simp [alGet, alSet, h, Ne.symm h]
  | cons e rest ih =>
      by_cases he : e.1 = k
      · subst he
        simp [alSet, alGet, h, Ne.symm h]
      · by_cases he' : e.1 = k'
        · simp [alSet, alGet, he, he', h, Ne.symm h, ih]
        · simp [alSet, alGet, he, he', ih]

theorem alGet_alErase_self {α β : Type} [DecidableEq α] (l : List (α × β)) (k : α) :
    alGet (alErase l k) k = none := by
  induction l with
  | nil => simp [alGet, alErase]
  | cons e rest ih =>
      by_cases h : e.1 = k
      · simpa [alErase, alGet, h] using ih
      · simpa [alErase, alGet, h] using ih

@[simp] theorem updateSocket_now (st : ProviderState) (sid : String) (f : SocketSt → SocketSt) :
    (updateSocket st sid f).now = st.now := by
  unfold updateSocket; cases alGet st.sockets sid <;> rfl

@[simp] theorem updateSocket_nextRef (st : ProviderState) (sid : String) (f : SocketSt → SocketSt) :
    (updateSocket st sid f).nextRef = st.nextRef := by
  unfold updateSocket; cases alGet st.sockets sid <;> rfl

@[simp] theorem updateSocket_heap (st : ProviderState) (sid : String) (f : SocketSt → SocketSt) :
    (updateSocket st sid f).heap = st.heap := by
  unfold updateSocket; cases alGet st.sockets sid <;> rfl

@[simp] theorem updateSocket_documents (st : ProviderState) (sid : String) (f : SocketSt → SocketSt) :
    (updateSocket st sid f).documents = st.documents := by
  unfold updateSocket; cases alGet st.sockets sid <;> rfl

@[simp] theorem updateSocket_awareness (st : ProviderState) (sid : String) (f : SocketSt → SocketSt) :
    (updateSocket st sid f).awareness = st.awareness := by
  unfold updateSocket; cases alGet st.sockets sid <;> rfl

@[simp] theorem updateSocket_clients (st : ProviderState) (sid : String) (f : SocketSt → SocketSt) :
    (updateSocket st sid f).clients = st.clients := by
  unfold updateSocket; cases alGet st.sockets sid <;> rfl

@[simp] theorem updateSocket_saveTimers (st : ProviderState) (sid : String) (f : SocketSt → SocketSt) :
    (updateSocket st sid f).saveTimers = st.saveTimers := by
  unfold updateSocket; cases alGet st.sockets sid <;> rfl

@[simp] theorem updateSocket_evictionTimers (st : ProviderState) (sid : String)
    (f : SocketSt → SocketSt) :
    (updateSocket st sid f).evictionTimers = st.evictionTimers := by
  unfold updateSocket; cases alGet st.sockets sid <;> rfl

@[simp] theorem updateSocket_store (st : ProviderState) (sid : String) (f : SocketSt → SocketSt) :
    (updateSocket st sid f).store = st.store := by
  unfold updateSocket; cases alGet st.sockets sid <;> rfl

@[simp] theorem updateSocket_saves (st : ProviderState) (sid : String) (f : SocketSt → SocketSt) :
    (updateSocket st sid f).saves = st.saves := by
  unfold updateSocket; cases alGet st.sockets sid <;> rfl

@[simp] theorem updateSocket_logs (st : ProviderState) (sid : String) (f : SocketSt → SocketSt) :
    (updateSocket st sid f).logs = st.logs := by
  unfold updateSocket; cases alGet st.sockets sid <;> rfl

theorem alGet_updateSocket_self (st : ProviderState) (sid : String) (f : SocketSt → SocketSt)
    (sock : SocketSt) (hs : alGet st.sockets sid = some sock) :
    alGet (updateSocket st sid f).sockets sid = some (f sock) := by
  unfold updateSocket
  rw [hs]
  exact alGet_alSet_self ..

@[simp] theorem joinLoadContinuation_false (st : ProviderState) (d : String) (r : Nat) :
    joinLoadContinuation st d r false = st := rfl

theorem joinLoadContinuation_documents (st : ProviderState) (d : String) (r : Nat) (c : Bool) :
    (joinLoadContinuation st d r c).documents = st.documents := by
  unfold joinLoadContinuation
  cases c
  · rfl
  · simp only [if_true]
    cases alGet st.store d <;> rfl

/-! ## Claim theorems -/

/-- C1: at most one CRDT document handle per document id.  The creating
`join-doc` registers the fresh `Y.Doc` in `this.documents` synchronously,
before its awaited snapshot load, so any other join for the same `docId` —
whether it runs while that load is still in flight (state `stA`) or after
the load continuation — observes and reuses the same document object `r` and
constructs no second one (the acquire leaves the state untouched and reports
no creation). -/
theorem acquireRoom_single_flight (st stA : ProviderState) (docId : String)
    (r : Nat) (b : Bool)
    (h0 : alGet st.documents docId = none)
    (h1 : joinAcquireSync st docId = (stA, r, b)) :
    b = true ∧
    alGet stA.documents docId = some r ∧
    joinAcquireSync stA docId = (stA, r, false) ∧
    joinAcquireSync (joinLoadContinuation stA docId r b) docId
      = (joinLoadContinuation stA docId r b, r, false) := by
  unfold joinAcquireSync at h1
  rw [h0] at h1
  simp only [Prod.mk.injEq] at h1
  obtain ⟨hstA, hr, hb⟩ := h1
  have hreg : alGet stA.documents docId = some r := by
    rw [← hstA, ← hr]
    exact alGet_alSet_self ..
  refine ⟨hb.symm, hreg, ?_, ?_⟩
  · unfold joinAcquireSync
    rw [hreg]
  · unfold joinAcquireSync
    rw [joinLoadContinuation_documents, hreg]

/-- Witness for C1 at the empty provider and `docId = "X"`. -/
theorem acquireRoom_single_flight_witness :
    alGet initState.documents "X" = none ∧
    joinAcquireSync initState "X" = ((joinAcquireSync initState "X").1, 0, true) ∧
    (true = true ∧
     alGet (joinAcquireSync initState "X").1.documents "X" = some 0 ∧
     joinAcquireSync (joinAcquireSync initState "X").1 "X"
       = ((joinAcquireSync initState "X").1, 0, false) ∧
     joinAcquireSync (joinLoadContinuation (joinAcquireSync initState "X").1 "X" 0 true) "X"
       = (joinLoadContinuation (joinAcquireSync initState "X").1 "X" 0 true, 0, false)) :=
  ⟨by decide, by decide,
   acquireRoom_single_flight initState (joinAcquireSync initState "X").1 "X" 0 true
     (by decide) (by decide)⟩

/-- C2: a `doc-update` received in the joined (Synced) state whose payload
`docId` matches the joined document is applied to the room's CRDT document,
its raw bytes are broadcast verbatim to the rest of the room excluding the
sender, and the debounced save is re-armed; the emission list is exactly
that one room broadcast, so nothing is sent back to the sender. -/
theorem docUpdate_apply_broadcast_schedule (st : ProviderState) (sid d : String)
    (r : Nat) (sock : SocketSt) (u : Bytes)
    (hs : alGet st.sockets sid = some sock)
    (hjoined : sock.docId = some d)
    (hdocm : alGet st.documents d = some r)
    (hh : sock.onDocUpdate = [⟨d, r⟩])
    (hvalid : structurallyValid u = true) :
    processDocUpdate st sid (some ⟨d, u⟩) =
      ({ st with
          heap := alSet st.heap r
            (if u ∈ heapGet st r then heapGet st r else heapGet st r ++ [u]),
          saveTimers := alSet st.saveTimers d ⟨st.now + SAVE_DEBOUNCE_MS, r⟩ },
       [⟨.toRoomExcept d sid, "doc-update", .bytesMsg d u⟩]) := by
  unfold processDocUpdate
  simp only [hs]
  rw [hh]
  simp [List.foldl, runDocUpdateHandler, yApplyUpdate, hvalid]

/-- Witness for C2: participant `"a"` of `stRoom` sends the update `[5]`. -/
theorem docUpdate_apply_broadcast_schedule_witness :
    alGet stRoom.sockets "a" = some (sockJoined "a" "d" 0) ∧
    (sockJoined "a" "d" 0).docId = some "d" ∧
    alGet stRoom.documents "d" = some 0 ∧
    (sockJoined "a" "d" 0).onDocUpdate = [⟨"d", 0⟩] ∧
    structurallyValid [5] = true ∧
    processDocUpdate stRoom "a" (some ⟨"d", [5]⟩) =
      ({ stRoom with
          heap := alSet stRoom.heap 0
            (if [5] ∈ heapGet stRoom 0 then heapGet stRoom 0 else heapGet stRoom 0 ++ [[5]]),
          saveTimers := alSet stRoom.saveTimers "d" ⟨stRoom.now + SAVE_DEBOUNCE_MS, 0⟩ },
       [⟨.toRoomExcept "d" "a", "doc-update", .bytesMsg "d" [5]⟩]) :=
  ⟨by decide, by decide, by decide, by decide, by decide,
   docUpdate_apply_broadcast_schedule stRoom "a" "d" 0 (sockJoined "a" "d" 0) [5]
     (by decide) (by decide) (by decide) (by decide) (by decide)⟩

/-- C7: a `join-doc` request with a missing (or empty) `docId`, `username`
or `color` field — or with no payload at all — is rejected with no state
change beyond the logged error: no room is created or acquired, no handlers
are registered, nothing is emitted, and the connection's session state is
untouched (it stays alive and unjoined). -/
theorem invalid_join_rejected_without_state_change (st : ProviderState) (sid : String)
    (data : Option JoinPayload)
    (hinvalid : isValidJoin data = false) :
    processJoin st sid data = ({ st with logs := st.logs + 1 }, []) := by
  unfold processJoin
  rw [hinvalid]
  rfl

/-- Witness for C7: a payload missing `username`, against `stRoom`. -/
theorem invalid_join_rejected_without_state_change_witness :
    isValidJoin (some ⟨some "d", none, some "red"⟩) = false ∧
    processJoin stRoom "a" (some ⟨some "d", none, some "red"⟩)
      = ({ stRoom with logs := stRoom.logs + 1 }, []) :=
  ⟨by decide,
   invalid_join_rejected_without_state_change stRoom "a"
     (some ⟨some "d", none, some "red"⟩) (by decide)⟩

/-- C8: when the CRDT rejects a structurally invalid `doc-update` payload,
the failure is caught at the application point: the only state change is the
logged error — the room's document keeps its last-good state, no broadcast
of the bad payload is emitted, no save is scheduled, and the sender's
connection record is untouched (it is not disconnected). -/
theorem apply_failure_caught_no_broadcast (st : ProviderState) (sid d : String)
    (r : Nat) (sock : SocketSt) (u : Bytes)
    (hs : alGet st.sockets sid = some sock)
    (hjoined : sock.docId = some d)
    (hdocm : alGet st.documents d = some r)
    (hh : sock.onDocUpdate = [⟨d, r⟩])
    (hbad : structurallyValid u = false) :
    processDocUpdate st sid (some ⟨d, u⟩) = ({ st with logs := st.logs + 1 }, []) := by
  unfold processDocUpdate
  simp only [hs]
  rw [hh]
  simp [List.foldl, runDocUpdateHandler, yApplyUpdate, hbad]

theorem runSchedulerCalls_saves (d : String) (r : Nat) (st : ProviderState) (ts : List Nat) :
    (runSchedulerCalls d r st ts).saves = st.saves := by
  induction ts generalizing st with
  | nil => rfl
  | cons t ts ih => simpa [runSchedulerCalls, debouncedSave, setNow] using ih _

theorem runSchedulerCalls_heap (d : String) (r : Nat) (st : ProviderState) (ts : List Nat) :
    (runSchedulerCalls d r st ts).heap = st.heap := by
  induction ts generalizing st with
  | nil => rfl
  | cons t ts ih => simpa [runSchedulerCalls, debouncedSave, setNow] using ih _

theorem runSchedulerCalls_timer (d : String) (r : Nat) (st : ProviderState)
    (t : Nat) (ts : List Nat) :
    alGet (runSchedulerCalls d r st (t :: ts)).saveTimers d
      = some ⟨ts.getLastD t + SAVE_DEBOUNCE_MS, r⟩ := by
  induction ts generalizing st t with
  | nil =>
      simp [runSchedulerCalls, debouncedSave, setNow, alGet_alSet_self]
  | cons t' ts ih =>
      rw [List.getLastD_cons]
      exact ih (debouncedSave (setNow st t) d r) t'

/-- C5: for every room and every burst of `N ≥ 1` scheduler calls at times
`t :: ts`, each call within the debounce window of its predecessor (so the
previously armed timer is still pending when the next call cancels and
re-arms it), no write happens during the burst, exactly one timer survives —
due `SAVE_DEBOUNCE_MS` after the last call — and firing it produces exactly
one store write, `SAVE_DEBOUNCE_MS` after the last call. -/
theorem debounce_coalesces_to_single_trailing_save
    (st : ProviderState) (d : String) (r : Nat) (t : Nat) (ts : List Nat)
    (hchain : List.Chain' (fun a b => a ≤ b ∧ b < a + SAVE_DEBOUNCE_MS) (t :: ts)) :
    (runSchedulerCalls d r st (t :: ts)).saves = st.saves ∧
    alGet (runSchedulerCalls d r st (t :: ts)).saveTimers d
      = some ⟨ts.getLastD t + SAVE_DEBOUNCE_MS, r⟩ ∧
    (∀ i : Nat, ∀ h1 : i + 1 < (t :: ts).length,
        (t :: ts).get ⟨i + 1, h1⟩
          < (t :: ts).get ⟨i, Nat.lt_of_succ_lt h1⟩ + SAVE_DEBOUNCE_MS) ∧
    (fireSaveTimer
        (setNow (runSchedulerCalls d r st (t :: ts))
          (ts.getLastD t + SAVE_DEBOUNCE_MS)) d).saves
      = st.saves ++ [⟨d, ts.getLastD t + SAVE_DEBOUNCE_MS, heapGet st r⟩] := by
  refine ⟨runSchedulerCalls_saves d r st (t :: ts), runSchedulerCalls_timer d r st t ts,
    ?_, ?_⟩
  · intro i h1
    have hstep := List.chain'_iff_get.mp hchain i
      (by simp only [List.length_cons] at h1 ⊢; omega)
    exact hstep.2
  · have htimer := runSchedulerCalls_timer d r st t ts
    have hsaves := runSchedulerCalls_saves d r st (t :: ts)
    have hheap := runSchedulerCalls_heap d r st (t :: ts)
    unfold fireSaveTimer
    simp [setNow, htimer, hsaves, heapGet, hheap]

/-- Witness for C5: three calls at 0, 500, 900 on a room holding update
`[7]`; the single write happens at 1900. -/
theorem debounce_coalesces_to_single_trailing_save_witness :
    List.Chain' (fun a b => a ≤ b ∧ b < a + SAVE_DEBOUNCE_MS) [0, 500, 900] ∧
    ((runSchedulerCalls "d" 0 stDrained [0, 500, 900]).saves = stDrained.saves ∧
     alGet (runSchedulerCalls "d" 0 stDrained [0, 500, 900]).saveTimers "d"
       = some ⟨[500, 900].getLastD 0 + SAVE_DEBOUNCE_MS, 0⟩ ∧
     (∀ i : Nat, ∀ h1 : i + 1 < ([0, 500, 900] : List Nat).length,
         ([0, 500, 900] : List Nat).get ⟨i + 1, h1⟩
           < ([0, 500, 900] : List Nat).get ⟨i, Nat.lt_of_succ_lt h1⟩ + SAVE_DEBOUNCE_MS) ∧
     (fireSaveTimer
         (setNow (runSchedulerCalls "d" 0 stDrained [0, 500, 900])
           ([500, 900].getLastD 0 + SAVE_DEBOUNCE_MS)) "d").saves
       = stDrained.saves ++ [⟨"d", [500, 900].getLastD 0 + SAVE_DEBOUNCE_MS, heapGet stDrained 0⟩]) :=
  ⟨by norm_num [List.chain'_cons, SAVE_DEBOUNCE_MS],
   debounce_coalesces_to_single_trailing_save stDrained "d" 0 0 [500, 900]
     (by norm_num [List.chain'_cons, SAVE_DEBOUNCE_MS])⟩

/-- C3: evaluation of the disconnect handler at the failing input.  In room
`"d"` of `stRoom`, participant `"a"` has published a presence entry for its
replica id 7; the relay leaves the server presence table untouched (first
conjunct), so when `"a"` disconnects, the handler's
`removeLocalStateField('user'/'cursor')` calls target the server's own local
state and remove nothing — the awareness table is unchanged (third conjunct)
— and the only broadcast is a `user-left` naming the connection id `"a"`,
not a presence-protocol removal naming replica id 7 (second conjunct). -/
theorem disconnect_presence_not_removed :
    (processAwarenessUpdate stRoom "a" (some ⟨"d", some [(7, [("cursor", "1")])]⟩)).1
      = stRoom ∧
    (processDisconnect stRoom "a").2
      = [⟨.toRoomExcept "d" "a", "user-left", .userLeft "a"⟩] ∧
    alGet (processDisconnect stRoom "a").1.awareness "d" = some (Awareness.new 0) := by
  decide

theorem processDisconnect_evictionTimers (st : ProviderState) (sid d : String)
    (sock : SocketSt)
    (hs : alGet st.sockets sid = some sock) (hd : sock.docId = some d) :
    (processDisconnect st sid).1.evictionTimers = st.evictionTimers ∨
    (processDisconnect st sid).1.evictionTimers
      = st.evictionTimers ++ [⟨d, st.now + CLEANUP_TTL_MS⟩] := by
  unfold processDisconnect
  simp only [hs, hd]
  repeat' split
  all_goals simp

theorem fireEvictionTimer_keeps (st : ProviderState) (tmr : EvictionTimer)
    (h : alGet st.clients tmr.docId ≠ some []) :
    (fireEvictionTimer st tmr).documents = st.documents := by
  unfold fireEvictionTimer
  repeat' split
  all_goals simp_all

theorem fireEvictionTimer_evicts (st : ProviderState) (tmr : EvictionTimer) (r : Nat)
    (hmem : tmr ∈ st.evictionTimers)
    (hempty : alGet st.clients tmr.docId = some [])
    (hdoc : alGet st.documents tmr.docId = some r) :
    (fireEvictionTimer st tmr).saves = st.saves ++ [⟨tmr.docId, st.now, heapGet st r⟩] ∧
    alGet (fireEvictionTimer st tmr).documents tmr.docId = none ∧
    alGet (fireEvictionTimer st tmr).awareness tmr.docId = none ∧
    alGet (fireEvictionTimer st tmr).clients tmr.docId = none ∧
    alGet (fireEvictionTimer st tmr).saveTimers tmr.docId = none := by
  unfold fireEvictionTimer
  simp [hmem, hempty, hdoc, alGet_alErase_self, heapGet]

/-- C4 (amended): a disconnect that empties a room arms a cleanup timer due
exactly `CLEANUP_TTL_MS` after that disconnect; when a cleanup timer fires
it evicts only if the room's participant set is empty at firing time — a
join that is still present then prevents the eviction, but the timer is
never cancelled by the join itself — and eviction performs the forced save
before discarding the document handle, presence table, client set and
debounce timer; any join while the document is resident reuses the same
in-memory instance and performs no snapshot load. -/
theorem eviction_grace_and_resident_reuse (st : ProviderState) (sid d : String)
    (sock : SocketSt) (tmr : EvictionTimer) (r : Nat)
    (hs : alGet st.sockets sid = some sock)
    (hd : sock.docId = some d)
    (hmem : tmr ∈ st.evictionTimers)
    (hempty : alGet st.clients tmr.docId = some [])
    (hdoc : alGet st.documents tmr.docId = some r) :
    (∀ t ∈ (processDisconnect st sid).1.evictionTimers,
        t ∈ st.evictionTimers ∨ t = ⟨d, st.now + CLEANUP_TTL_MS⟩) ∧
    (∀ st' : ProviderState, alGet st'.clients tmr.docId ≠ some [] →
        (fireEvictionTimer st' tmr).documents = st'.documents) ∧
    (fireEvictionTimer st tmr).saves
      = st.saves ++ [⟨tmr.docId, st.now, heapGet st r⟩] ∧
    alGet (fireEvictionTimer st tmr).documents tmr.docId = none ∧
    alGet (fireEvictionTimer st tmr).awareness tmr.docId = none ∧
    alGet (fireEvictionTimer st tmr).clients tmr.docId = none ∧
    alGet (fireEvictionTimer st tmr).saveTimers tmr.docId = none ∧
    joinAcquireSync st tmr.docId = (st, r, false) ∧
    joinLoadContinuation st tmr.docId r false = st := by
  obtain ⟨e1, e2, e3, e4, e5⟩ := fireEvictionTimer_evicts st tmr r hmem hempty hdoc
  refine ⟨?_, ?_, e1, e2, e3, e4, e5, ?_, rfl⟩
  · intro t ht
    rcases processDisconnect_evictionTimers st sid d sock hs hd with hc | hc
    · rw [hc] at ht
      exact .inl ht
    · rw [hc] at ht
      rcases List.mem_append.mp ht with h' | h'
      · exact .inl h'
      · exact .inr (List.mem_singleton.mp h')
  · intro st' h'
    exact fireEvictionTimer_keeps st' tmr h'
  · unfold joinAcquireSync
    rw [hdoc]

/-- Witness for C4 (amended) at `stDrained` (room `"X"`, empty, timer
pending, socket `"b"` still carrying its `docId` attribute). -/
theorem eviction_grace_and_resident_reuse_witness :
    alGet stDrained.sockets "b" = some { sockJoined "b" "X" 0 with connected := false } ∧
    ({ sockJoined "b" "X" 0 with connected := false } : SocketSt).docId = some "X" ∧
    (⟨"X", 60000⟩ : EvictionTimer) ∈ stDrained.evictionTimers ∧
    alGet stDrained.clients "X" = some [] ∧
    alGet stDrained.documents "X" = some 0 ∧
    ((∀ t ∈ (processDisconnect stDrained "b").1.evictionTimers,
        t ∈ stDrained.evictionTimers ∨ t = ⟨"X", stDrained.now + CLEANUP_TTL_MS⟩) ∧
     (∀ st' : ProviderState, alGet st'.clients "X" ≠ some [] →
        (fireEvictionTimer st' ⟨"X", 60000⟩).documents = st'.documents) ∧
     (fireEvictionTimer stDrained ⟨"X", 60000⟩).saves
       = stDrained.saves ++ [⟨"X", stDrained.now, heapGet stDrained 0⟩] ∧
     alGet (fireEvictionTimer stDrained ⟨"X", 60000⟩).documents "X" = none ∧
     alGet (fireEvictionTimer stDrained ⟨"X", 60000⟩).awareness "X" = none ∧
     alGet (fireEvictionTimer stDrained ⟨"X", 60000⟩).clients "X" = none ∧
     alGet (fireEvictionTimer stDrained ⟨"X", 60000⟩).saveTimers "X" = none ∧
     joinAcquireSync stDrained "X" = (stDrained, 0, false) ∧
     joinLoadContinuation stDrained "X" 0 false = stDrained) :=
  ⟨by decide, by decide, by decide, by decide, by decide,
   eviction_grace_and_resident_reuse stDrained "b" "X"
     { sockJoined "b" "X" 0 with connected := false } ⟨"X", 60000⟩ 0
     (by decide) (by decide) (by decide) (by decide) (by decide)⟩

/-- C4 counterexample: in `evictionRaceTrace`, `b`'s join at 10000 arrives
before the cleanup armed by `a`'s disconnect at 0 fires, yet that stale
timer still evicts the room when it fires at 60000 — only 30000 ms after
the last disconnect (`b`'s, at 30000), i.e. earlier than
`CLEANUP_TTL_MS` after the last disconnect.  The document was resident
right up to the firing (first conjunct) and is gone afterwards (second). -/
theorem eviction_fires_despite_rejoin_cex :
    alGet (runTrace initState (evictionRaceTrace.take 6)).1.documents "X" = some 0 ∧
    alGet (runTrace initState evictionRaceTrace).1.documents "X" = none ∧
    (runTrace initState evictionRaceTrace).1.now = 60000 ∧
    60000 < 30000 + CLEANUP_TTL_MS := by
  decide

/-- C6 (amended): re-joining the *same* docId on the same connection
replaces, rather than stacks, the prior `sync-step2` / `doc-update` /
`awareness-update` registrations: after the re-join the connection holds
exactly one handler per event (all bound to the joined document), so each
broadcastable message is processed and relayed at most once per connection
as long as the connection only ever re-joins the docId it is already in.
(Joining a *different* docId and back stacks handlers — see the
counterexample.) -/
theorem rejoin_same_doc_replaces_handlers (st : ProviderState) (sid d : String)
    (sock : SocketSt) (r : Nat) (aw : Awareness) (p : JoinPayload)
    (hs : alGet st.sockets sid = some sock)
    (hcur : sock.docId = some d)
    (hp : p.docId = some d)
    (hvalid : isValidJoin (some p) = true)
    (hdoc : alGet st.documents d = some r)
    (haw : alGet st.awareness d = some aw) :
    ∃ sock' : SocketSt,
      alGet (processJoin st sid (some p)).1.sockets sid = some sock' ∧
      sock'.onSyncStep2 = [⟨d, r⟩] ∧
      sock'.onDocUpdate = [⟨d, r⟩] ∧
      sock'.onAwarenessUpdate = [⟨d, r⟩] := by
  unfold processJoin
  simp [hvalid, hs, hcur, hp, hdoc, haw, joinAcquireSync]
  refine ⟨_, alGet_updateSocket_self _ sid _ _ (alGet_updateSocket_self _ sid _ _
    (alGet_updateSocket_self _ sid _ _ (alGet_updateSocket_self st sid _ sock hs))),
    rfl, rfl, rfl⟩

/-- Witness for C6 (amended): `"a"` re-joins `"d"` in `stRoom`. -/
theorem rejoin_same_doc_replaces_handlers_witness :
    alGet stRoom.sockets "a" = some (sockJoined "a" "d" 0) ∧
    (sockJoined "a" "d" 0).docId = some "d" ∧
    (⟨some "d", some "u", some "red"⟩ : JoinPayload).docId = some "d" ∧
    isValidJoin (some ⟨some "d", some "u", some "red"⟩) = true ∧
    alGet stRoom.documents "d" = some 0 ∧
    alGet stRoom.awareness "d" = some (Awareness.new 0) ∧
    (∃ sock' : SocketSt,
      alGet (processJoin stRoom "a" (some ⟨some "d", some "u", some "red"⟩)).1.sockets "a"
        = some sock' ∧
      sock'.onSyncStep2 = [⟨"d", 0⟩] ∧
      sock'.onDocUpdate = [⟨"d", 0⟩] ∧
      sock'.onAwarenessUpdate = [⟨"d", 0⟩]) :=
  ⟨by decide, by decide, by decide, by decide, by decide, by decide,
   rejoin_same_doc_replaces_handlers stRoom "a" "d" (sockJoined "a" "d" 0) 0
     (Awareness.new 0) ⟨some "d", some "u", some "red"⟩
     (by decide) (by decide) (by decide) (by decide) (by decide) (by decide)⟩

/-- C6 counterexample: after the join sequence `A`, `B`, `A` on one
connection (`handlerStackTrace`), a single `doc-update` for `A` is relayed
*twice* to the rest of the room — the switch to `B` and back stacked a
second `doc-update` handler for `A`, because only the same-document re-join
path removes old listeners. -/
theorem rejoin_after_switch_duplicates_broadcast_cex :
    (processDocUpdate (runTrace initState handlerStackTrace).1 "s" (some ⟨"A", [5]⟩)).2
      = [⟨.toRoomExcept "A" "s", "doc-update", .bytesMsg "A" [5]⟩,
         ⟨.toRoomExcept "A" "s", "doc-update", .bytesMsg "A" [5]⟩] := by
  decide

/-- C9: evaluation at the failing input.  In `latePresenceTrace`,
participant `"a"` publishes a presence entry for replica id 7 before `"b"`
joins; the relay never writes the server's presence table, so the only
`awareness-update` the joiner `"b"` is sent contains just the server's own
empty local state `(0, [])` — the previously established replica-7 entry is
not delivered to the joiner. -/
theorem join_presence_table_missing_entries :
    (runTrace initState latePresenceTrace).2.filter
        (fun e => (e.target == Target.toSocket "b") && (e.event == "awareness-update"))
      = [⟨.toSocket "b", "awareness-update", .awarenessMsg "d" [(0, [])]⟩] := by
  decide

/-- C10 counterexample: stored metadata whose `createdAt` is `0` is not
preserved by a call that supplies no `createdAt` — JS `||` treats the stored
`0` as absent and stamps the current time (here 5) instead. -/
theorem saveMetadata_zero_createdAt_cex :
    (saveMetadata "doc" (some ⟨"doc", "t", 1, 0⟩) ⟨"u", 2, none⟩ 5).createdAt = 5 ∧
    (5 : Nat) ≠ 0 := by
  decide

/-- C10 (amended): when no `createdAt` is supplied (or a `0` is supplied,
which `||` treats as absent) and the stored `createdAt` is nonzero, saving
metadata preserves the original `createdAt` and changes only `title` and
`lastModified`; `createdAt` is stamped with the current time when no prior
metadata exists and none is supplied. -/
theorem saveMetadata_createdAt_preservation (docId : String) (e : DocMetadata)
    (m : MetadataArg) (now : Nat)
    (hnz : e.createdAt ≠ 0)
    (habs : m.createdAt = none ∨ m.createdAt = some 0) :
    saveMetadata docId (some e) m now
      = ⟨docId, m.title, m.lastModified, e.createdAt⟩ ∧
    (m.createdAt = none →
      saveMetadata docId none m now = ⟨docId, m.title, m.lastModified, now⟩) := by
  constructor
  · unfold saveMetadata orFalsy
    rcases habs with h | h <;> simp [h, hnz]
  · intro h
    unfold saveMetadata orFalsy
    simp [h]

/-- Witness for C10 (amended): stored `createdAt = 42` survives a call with
no supplied `createdAt`. -/
theorem saveMetadata_createdAt_preservation_witness :
    (42 : Nat) ≠ 0 ∧
    ((⟨"u", 2, none⟩ : MetadataArg).createdAt = none ∨
      (⟨"u", 2, none⟩ : MetadataArg).createdAt = some 0) ∧
    (saveMetadata "doc" (some ⟨"doc", "t", 1, 42⟩) ⟨"u", 2, none⟩ 5
        = ⟨"doc", "u", 2, 42⟩ ∧
     ((⟨"u", 2, none⟩ : MetadataArg).createdAt = none →
       saveMetadata "doc" none ⟨"u", 2, none⟩ 5 = ⟨"doc", "u", 2, 5⟩)) :=
  ⟨by decide, by decide,
   saveMetadata_createdAt_preservation "doc" ⟨"doc", "t", 1, 42⟩ ⟨"u", 2, none⟩ 5
     (by decide) (by decide)⟩

/-- Witness for C8: participant `"a"` of `stRoom` sends the empty (hence
non-decodable) update. -/
theorem apply_failure_caught_no_broadcast_witness :
    alGet stRoom.sockets "a" = some (sockJoined "a" "d" 0) ∧
    (sockJoined "a" "d" 0).docId = some "d" ∧
    alGet stRoom.documents "d" = some 0 ∧
    (sockJoined "a" "d" 0).onDocUpdate = [⟨"d", 0⟩] ∧
    structurallyValid [] = false ∧
    processDocUpdate stRoom "a" (some ⟨"d", []⟩)
      = ({ stRoom with logs := stRoom.logs + 1 }, []) :=
  ⟨by decide, by decide, by decide, by decide, by decide,
   apply_failure_caught_no_broadcast stRoom "a" "d" 0 (sockJoined "a" "d" 0) []
     (by decide) (by decide) (by decide) (by decide) (by decide)⟩

end Collab
